import Mathlib

/-!
Verification of the cart / checkout logic of a small e-commerce storefront.

The storefront keeps three Firestore collections: `products/{productId}`,
`carts/{userId}/items/{productId}` and `orders/{orderId}`.  We embed the
document store as an explicit `State` holding the product collection, one
customer's cart lines (in read order) and the order collection.  Every
operation is translated line by line from the TypeScript source
(`createOrderFromCart`, `addToCart`, `updateCartItemQuantity`, `clearCart`,
`deleteProduct`, `updateProduct`); fallible operations return
`Except err α × State`, where an `.error` outcome is paired with the input
state unchanged because in the source every `throw` happens before any
write is issued on that path.

Monetary amounts, stock counts and quantities are JavaScript numbers in the
source; the claims under study only exercise integer arithmetic, so they
are embedded as `Int` (which also captures the `quantity <= 0` branches).
Timestamps are embedded as an abstract `Nat` instant passed to each
operation (the source calls `Timestamp.now()`); Firestore-generated
document ids are passed in as explicit parameters.
-/

namespace Shopee

/-- Product categories (`ProductCategory` in `types.ts`, a closed union). -/
inductive ProductCategory
  | electronics
  | fashion
  | food
  | books
  | toys
  | sports
  | other
deriving DecidableEq, Repr

/-- A product document (`Product` in `types.ts`). -/
structure Product where
  id : String
  sellerId : String
  name : String
  description : String
  price : Int
  stock : Int
  category : ProductCategory
  imageUrl : String
  createdAt : Nat
  updatedAt : Nat
deriving DecidableEq, Repr

/-- A cart line document (`CartItem` in `types.ts`).  `product` is the
denormalized snapshot captured at add-time; `updatedAt` is the extra field
that `updateDoc` writes on merge/overwrite (absent on a fresh line). -/
structure CartItem where
  id : String
  productId : String
  product : Product
  quantity : Int
  addedAt : Nat
  updatedAt : Option Nat
deriving DecidableEq, Repr

/-- Order status (`OrderStatus` in `types.ts`). -/
inductive OrderStatus
  | pending
  | completed
  | cancelled
deriving DecidableEq, Repr

/-- A line of an order (`OrderItem` in `types.ts`). -/
structure OrderItem where
  productId : String
  productName : String
  productImage : String
  quantity : Int
  priceAtPurchase : Int
  subtotal : Int
deriving DecidableEq, Repr

/-- An order document (`Order` in `types.ts`). -/
structure Order where
  id : String
  customerId : String
  items : List OrderItem
  totalAmount : Int
  status : OrderStatus
  createdAt : Nat
deriving DecidableEq, Repr

/-- The errors `createOrderFromCart` throws: `'Keranjang kosong'`,
`` `Produk ${cartItem.product.name} tidak ditemukan` `` (the name comes from
the cached cart snapshot) and
`` `Stok ${product.name} tidak mencukupi. Tersedia: ..., Diminta: ...` ``. -/
inductive OrderError
  | emptyCart
  | productNotFound (cachedName : String)
  | insufficientStock (name : String) (available requested : Int)
deriving DecidableEq, Repr

/-- The errors the cart operations throw: `'Produk tidak ditemukan'`,
`'Stok tidak mencukupi'`; `updateFailed` models the backend error that
`updateDoc` raises when the target document does not exist (the source
rethrows it unchanged). -/
inductive CartError
  | productNotFound
  | insufficientStock
  | updateFailed
deriving DecidableEq, Repr

/-- The document store as seen by one customer: the shared `products`
collection, that customer's cart lines in read order, and the `orders`
collection. -/
structure State where
  products : List Product
  cart : List CartItem
  orders : List Order
deriving DecidableEq, Repr

/-- `getProductById` in `products.ts`: fetch `products/{productId}`,
`none` when the document does not exist. -/
def getProductById (productId : String) (ps : List Product) : Option Product :=
  ps.find? (fun p => p.id == productId)

/-- Lookup of the cart line document `carts/{userId}/items/{productId}`
(the `getDoc(cartItemRef)` reads in `cart.ts`). -/
def getCartLine (s : State) (productId : String) : Option CartItem :=
  s.cart.find? (fun ci => ci.productId == productId)

/-- `addToCart` in `cart.ts`: fetch the product, validate the requested
quantity against stock, then either merge into the existing cart line
(summing quantities, re-validated against stock) or create a fresh line
with a denormalized product snapshot. -/
def addToCart (s : State) (userId productId : String) (quantity : Int) (now : Nat) :
    Except CartError CartItem × State :=
  match getProductById productId s.products with
  | none => (.error .productNotFound, s)
  | some product =>
    if product.stock < quantity then (.error .insufficientStock, s)
    else
      match s.cart.find? (fun ci => ci.productId == productId) with
      | some existingItem =>
        let newQuantity := existingItem.quantity + quantity
        if product.stock < newQuantity then (.error .insufficientStock, s)
        else
          (.ok { existingItem with quantity := newQuantity },
           { s with cart := s.cart.map (fun ci =>
               if ci.productId == productId then
                 { ci with quantity := newQuantity, updatedAt := some now }
               else ci) })
      | none =>
        let newCartItem : CartItem :=
          { id := productId, productId := productId, product := product,
            quantity := quantity, addedAt := now, updatedAt := none }
        (.ok newCartItem, { s with cart := s.cart ++ [newCartItem] })

/-- `updateCartItemQuantity` in `cart.ts`: a non-positive quantity deletes
the line (before any product fetch); a positive quantity is validated
against the freshly fetched product's stock and then overwrites the stored
quantity via `updateDoc`. -/
def updateCartItemQuantity (s : State) (userId productId : String) (quantity : Int)
    (now : Nat) : Except CartError Unit × State :=
  if quantity ≤ 0 then
    (.ok (), { s with cart := s.cart.filter (fun ci => ci.productId != productId) })
  else
    match getProductById productId s.products with
    | none => (.error .productNotFound, s)
    | some product =>
      if product.stock < quantity then (.error .insufficientStock, s)
      else if s.cart.any (fun ci => ci.productId == productId) then
        (.ok (), { s with cart := s.cart.map (fun ci =>
            if ci.productId == productId then
              { ci with quantity := quantity, updatedAt := some now }
            else ci) })
      else (.error .updateFailed, s)

/-- `clearCart` in `cart.ts`: read the customer's cart lines and delete
them all in one batch, leaving the cart collection empty. -/
def clearCart (s : State) : State :=
  { s with cart := [] }

/-- The validation loop of `createOrderFromCart`: for each cart line
re-fetch the product (error if deleted), check
`product.stock < cartItem.quantity` (error if insufficient), and otherwise
push an `OrderItem` priced from the freshly fetched product, accumulating
the total amount. -/
def buildOrderItems (ps : List Product) : List CartItem → Except OrderError (List OrderItem × Int)
  | [] => .ok ([], 0)
  | cartItem :: rest =>
    match getProductById cartItem.productId ps with
    | none => .error (.productNotFound cartItem.product.name)
    | some product =>
      if product.stock < cartItem.quantity then
        .error (.insufficientStock product.name product.stock cartItem.quantity)
      else
        let subtotal := product.price * cartItem.quantity
        let item : OrderItem :=
          { productId := product.id, productName := product.name,
            productImage := product.imageUrl, quantity := cartItem.quantity,
            priceAtPurchase := product.price, subtotal := subtotal }
        match buildOrderItems ps rest with
        | .error e => .error e
        | .ok (items, total) => .ok (item :: items, subtotal + total)

/-- One `batch.update(productRef, { stock: ..., updatedAt: ... })`:
every product document with the given id gets the given stock value and a
fresh update timestamp (document ids are unique in Firestore, so at most
one document matches). -/
def batchUpdateStock (ps : List Product) (productId : String) (newStock : Int)
    (now : Nat) : List Product :=
  ps.map (fun p =>
    if p.id == productId then { p with stock := newStock, updatedAt := now } else p)

/-- One iteration of the stock-decrement loop of `createOrderFromCart`:
re-fetch the product (reads see the pre-batch collection `orig`, since the
batch is buffered until `commit`), skip it if missing, otherwise stage
`stock := product.stock - item.quantity`. -/
def stockStep (orig : List Product) (now : Nat) (acc : List Product)
    (item : OrderItem) : List Product :=
  match getProductById item.productId orig with
  | none => acc
  | some product => batchUpdateStock acc item.productId (product.stock - item.quantity) now

/-- The committed stock batch of `createOrderFromCart`: every staged update
is applied, all reads having been taken from the pre-batch collection. -/
def applyStockBatch (orig : List Product) (items : List OrderItem) (now : Nat) :
    List Product :=
  items.foldl (stockStep orig now) orig

/-- `createOrderFromCart` in `orders.ts`: read the cart (error if empty),
validate every line and build the order items, write the order document
(status `'completed'`), commit the batched stock decrements, clear the
cart, and return the order with its generated id.  Every `throw` in the
source happens before the first write, so an `.error` outcome carries the
input state unchanged. -/
def createOrderFromCart (s : State) (userId orderId : String) (now : Nat) :
    Except OrderError Order × State :=
  let cartItems := s.cart
  if cartItems.length = 0 then (.error .emptyCart, s)
  else
    match buildOrderItems s.products cartItems with
    | .error e => (.error e, s)
    | .ok (orderItems, totalAmount) =>
      let order : Order :=
        { id := orderId, customerId := userId, items := orderItems,
          totalAmount := totalAmount, status := .completed, createdAt := now }
      let s1 : State := { s with orders := s.orders ++ [order] }
      let s2 : State := { s1 with products := applyStockBatch s1.products orderItems now }
      (.ok order, clearCart s2)

/-- A cart line passes the checkout validation: the product it references
still exists and its stock covers the requested quantity. -/
def lineValid (ps : List Product) (ci : CartItem) : Prop :=
  ∃ p, getProductById ci.productId ps = some p ∧ ¬ p.stock < ci.quantity

/-- `DEFAULT_IMAGE_URL` in `products.ts`: the shared placeholder used when
a product is created without an image. -/
def DEFAULT_IMAGE_URL : String :=
  "https://placehold.co/400x400/e5e7eb/6b7280?text=No+Image"

/-- The product collection together with the log of storage objects whose
deletion has been issued (`deleteObject` calls). -/
structure Catalog where
  products : List Product
  deletedImages : List String
deriving DecidableEq, Repr

/-- `deleteProductImage` in `products.ts`: issue a best-effort deletion of
the storage object behind the URL (failures are swallowed). -/
def deleteProductImage (c : Catalog) (imageUrl : String) : Catalog :=
  { c with deletedImages := c.deletedImages ++ [imageUrl] }

/-- The `Partial<Omit<Product, 'id' | 'sellerId' | 'createdAt'>>` update
payload of `updateProduct`: absent fields are left unchanged. -/
structure ProductUpdate where
  name : Option String := none
  description : Option String := none
  price : Option Int := none
  stock : Option Int := none
  category : Option ProductCategory := none
  imageUrl : Option String := none
deriving DecidableEq, Repr

/-- Apply an update payload to a product document, refreshing `updatedAt`
(the `updateDoc(..., updateData)` merge). -/
def applyProductUpdate (u : ProductUpdate) (now : Nat) (p : Product) : Product :=
  { p with
    name := u.name.getD p.name,
    description := u.description.getD p.description,
    price := u.price.getD p.price,
    stock := u.stock.getD p.stock,
    category := u.category.getD p.category,
    imageUrl := u.imageUrl.getD p.imageUrl,
    updatedAt := now }

/-- `updateProduct` in `products.ts`: when a new image file is supplied,
the old image is deleted first — but only if it differs from the
placeholder — and the freshly uploaded URL (`uploadedImageUrl` stands for
the `uploadProductImage` result) is merged into the update payload; then
the document is updated. -/
def updateProduct (c : Catalog) (productId : String) (updates : ProductUpdate)
    (uploadedImageUrl : Option String) (now : Nat) : Catalog :=
  match uploadedImageUrl with
  | none =>
    { c with products := c.products.map (fun p =>
        if p.id == productId then applyProductUpdate updates now p else p) }
  | some newUrl =>
    let c1 :=
      match getProductById productId c.products with
      | some oldProduct =>
        if oldProduct.imageUrl ≠ DEFAULT_IMAGE_URL then
          deleteProductImage c oldProduct.imageUrl
        else c
      | none => c
    let updates1 :=
      match getProductById productId c1.products with
      | some _ => { updates with imageUrl := some newUrl }
      | none => updates
    { c1 with products := c1.products.map (fun p =>
        if p.id == productId then applyProductUpdate updates1 now p else p) }

/-- `deleteProduct` in `products.ts`: fetch the product, delete its image
unless it is the shared placeholder, then delete the document. -/
def deleteProduct (c : Catalog) (productId : String) : Catalog :=
  let c1 :=
    match getProductById productId c.products with
    | some product =>
      if product.imageUrl ≠ DEFAULT_IMAGE_URL then
        deleteProductImage c product.imageUrl
      else c
    | none => c
  { c1 with products := c1.products.filter (fun p => p.id != productId) }

/-!  Helper lemmas about lookups, the stock batch and the validation loop. -/

/-- `find?` commutes with a `map` whose function preserves the search
predicate. -/
theorem find?_map_key {α : Type} (f : α → α) (q : α → Bool) (hf : ∀ a, q (f a) = q a) :
    ∀ l : List α, (l.map f).find? q = (l.find? q).map f
  | [] => rfl
  | a :: l => by
    rw [List.map_cons]
    cases hq : q a
    · rw [List.find?_cons_of_neg _ (by simp [hf a, hq]),
          List.find?_cons_of_neg _ (by simp [hq]),
          find?_map_key f q hf l]
    · rw [List.find?_cons_of_pos _ (by simp [hf a, hq]),
          List.find?_cons_of_pos _ (by simp [hq])]
      rfl

/-- A successful product lookup returns a product carrying the looked-up id. -/
theorem getProductById_eq_id {productId : String} {ps : List Product} {p : Product}
    (h : getProductById productId ps = some p) : p.id = productId := by
  unfold getProductById at h
  have hb := List.find?_some h
  simp only [beq_iff_eq] at hb
  exact hb

/-- A successful cart-line lookup returns a line carrying the looked-up
product id. -/
theorem getCartLine_eq_productId {s : State} {productId : String} {ci : CartItem}
    (h : getCartLine s productId = some ci) : ci.productId = productId := by
  unfold getCartLine at h
  have hb := List.find?_some h
  simp only [beq_iff_eq] at hb
  exact hb

/-- Looking a product up after a staged stock update. -/
theorem getProductById_batchUpdateStock (ps : List Product) (pid pid2 : String)
    (v : Int) (now : Nat) :
    getProductById pid2 (batchUpdateStock ps pid v now) =
      (getProductById pid2 ps).map (fun p =>
        if p.id == pid then { p with stock := v, updatedAt := now } else p) := by
  unfold getProductById batchUpdateStock
  exact find?_map_key _ _ (fun a => by by_cases h : a.id = pid <;> simp [h]) ps

/-- The staged update rewrites the stock of the product it targets. -/
theorem batchUpdateStock_self {ps : List Product} {pid : String} {p : Product}
    (v : Int) (now : Nat) (h : getProductById pid ps = some p) :
    getProductById pid (batchUpdateStock ps pid v now) =
      some { p with stock := v, updatedAt := now } := by
  rw [getProductById_batchUpdateStock, h]
  have hid : p.id = pid := getProductById_eq_id h
  simp [hid]

/-- The staged update leaves every other product untouched. -/
theorem batchUpdateStock_other {ps : List Product} {pid pid2 : String}
    (v : Int) (now : Nat) (hne : pid2 ≠ pid) :
    getProductById pid2 (batchUpdateStock ps pid v now) = getProductById pid2 ps := by
  rw [getProductById_batchUpdateStock]
  cases h : getProductById pid2 ps with
  | none => rfl
  | some p =>
    have hid : p.id = pid2 := getProductById_eq_id h
    simp [hid, hne]

/-- One iteration of the stock loop leaves other product ids untouched. -/
theorem stockStep_other {orig acc : List Product} {now : Nat} {item : OrderItem}
    {pid : String} (hne : pid ≠ item.productId) :
    getProductById pid (stockStep orig now acc item) = getProductById pid acc := by
  unfold stockStep
  cases getProductById item.productId orig with
  | none => rfl
  | some product => exact batchUpdateStock_other _ _ hne

/-- The whole stock loop leaves product ids outside the order untouched. -/
theorem foldl_stockStep_frame (orig : List Product) (now : Nat) :
    ∀ (items : List OrderItem) (acc : List Product) (pid : String),
      (∀ it ∈ items, pid ≠ it.productId) →
      getProductById pid (items.foldl (stockStep orig now) acc) = getProductById pid acc
  | [], _, _, _ => rfl
  | it :: rest, acc, pid, h => by
    rw [List.foldl_cons,
        foldl_stockStep_frame orig now rest _ pid
          (fun j hj => h j (List.mem_cons_of_mem it hj)),
        stockStep_other (h it (List.mem_cons_self it rest))]

/-- Running the whole stock loop on an order with pairwise distinct product
ids decrements the stock of each ordered product by its ordered quantity. -/
theorem foldl_stockStep_hit (orig : List Product) (now : Nat) :
    ∀ (items : List OrderItem) (it : OrderItem) (p : Product) (acc : List Product),
      (items.map (fun i => i.productId)).Nodup →
      it ∈ items →
      getProductById it.productId orig = some p →
      getProductById it.productId acc = some p →
      getProductById it.productId (items.foldl (stockStep orig now) acc) =
        some { p with stock := p.stock - it.quantity, updatedAt := now }
  | [], it, _, _, _, hmem, _, _ => absurd hmem (List.not_mem_nil it)
  | it0 :: rest, it, p, acc, hnd, hmem, horig, hacc => by
    rw [List.foldl_cons]
    rw [List.map_cons, List.nodup_cons] at hnd
    rcases List.mem_cons.mp hmem with heq | hmem2
    · subst heq
      have hstep : getProductById it.productId (stockStep orig now acc it) =
          some { p with stock := p.stock - it.quantity, updatedAt := now } := by
        unfold stockStep
        rw [horig]
        exact batchUpdateStock_self _ _ hacc
      have hfr : ∀ j ∈ rest, it.productId ≠ j.productId := by
        intro j hj hEq
        exact hnd.1 (by rw [hEq]; exact List.mem_map_of_mem _ hj)
      rw [foldl_stockStep_frame orig now rest _ _ hfr, hstep]
    · have hne : it.productId ≠ it0.productId := by
        intro hEq
        exact hnd.1 (by rw [← hEq]; exact List.mem_map_of_mem _ hmem2)
      have hacc2 : getProductById it.productId (stockStep orig now acc it0) = some p := by
        rw [stockStep_other hne]
        exact hacc
      exact foldl_stockStep_hit orig now rest it p _ hnd.2 hmem2 horig hacc2

/-- How one cart line relates to the order line built from it: the product
was re-fetched successfully, its stock covered the requested quantity, and
every snapshot field of the order line comes from the re-fetched product. -/
def orderLineRel (ps : List Product) (ci : CartItem) (it : OrderItem) : Prop :=
  ∃ p, getProductById ci.productId ps = some p ∧ ¬ p.stock < ci.quantity ∧
    it.productId = ci.productId ∧ it.quantity = ci.quantity ∧
    it.priceAtPurchase = p.price ∧ it.productName = p.name ∧
    it.productImage = p.imageUrl ∧ it.subtotal = p.price * ci.quantity

/-- Inversion of a successful validation loop: each order line is related
to its cart line by `orderLineRel` and the total is the sum of
`priceAtPurchase * quantity` over the order lines. -/
theorem buildOrderItems_spec (ps : List Product) :
    ∀ (cart : List CartItem) (items : List OrderItem) (total : Int),
      buildOrderItems ps cart = .ok (items, total) →
      List.Forall₂ (orderLineRel ps) cart items ∧
        total = (items.map (fun it => it.priceAtPurchase * it.quantity)).sum
  | [], items, total, h => by
    simp only [buildOrderItems, Except.ok.injEq, Prod.mk.injEq] at h
    obtain ⟨h1, h2⟩ := h
    subst h1
    subst h2
    exact ⟨List.Forall₂.nil, by simp⟩
  | ci :: rest, items, total, h => by
    cases hp : getProductById ci.productId ps with
    | none =>
      simp only [buildOrderItems, hp] at h
      exact Except.noConfusion h
    | some product =>
      simp only [buildOrderItems, hp] at h
      by_cases hst : product.stock < ci.quantity
      · rw [if_pos hst] at h
        exact Except.noConfusion h
      · rw [if_neg hst] at h
        cases hrest : buildOrderItems ps rest with
        | error e =>
          simp only [hrest] at h
          exact Except.noConfusion h
        | ok pr =>
          obtain ⟨items2, total2⟩ := pr
          simp only [hrest, Except.ok.injEq, Prod.mk.injEq] at h
          obtain ⟨h1, h2⟩ := h
          subst h1
          subst h2
          obtain ⟨hrel, htot⟩ := buildOrderItems_spec ps rest items2 total2 hrest
          refine ⟨List.Forall₂.cons ⟨product, hp, hst, getProductById_eq_id hp,
            rfl, rfl, rfl, rfl, rfl⟩ hrel, ?_⟩
          simp [htot]

/-- The validation loop succeeds on a cart whose every line is valid. -/
theorem buildOrderItems_isOk (ps : List Product) :
    ∀ (cart : List CartItem), (∀ ci ∈ cart, lineValid ps ci) →
      ∃ items total, buildOrderItems ps cart = .ok (items, total)
  | [], _ => ⟨[], 0, rfl⟩
  | ci :: rest, hv => by
    obtain ⟨p, hp, hst⟩ := hv ci (List.mem_cons_self ci rest)
    obtain ⟨items, total, hrest⟩ :=
      buildOrderItems_isOk ps rest (fun cj hj => hv cj (List.mem_cons_of_mem ci hj))
    cases hb : buildOrderItems ps (ci :: rest) with
    | ok r => exact ⟨r.1, r.2, rfl⟩
    | error e =>
      simp only [buildOrderItems, hp, if_neg hst, hrest] at hb
      exact Except.noConfusion hb

/-- The validation loop stops at the first line whose stock check fails,
provided every earlier line validates. -/
theorem buildOrderItems_insufficient (ps : List Product) :
    ∀ (pre : List CartItem) (ci : CartItem) (post : List CartItem) (p : Product),
      (∀ cj ∈ pre, lineValid ps cj) →
      getProductById ci.productId ps = some p →
      p.stock < ci.quantity →
      buildOrderItems ps (pre ++ ci :: post) =
        .error (.insufficientStock p.name p.stock ci.quantity)
  | [], ci, post, p, _, hp, hbad => by
    simp only [List.nil_append, buildOrderItems, hp, if_pos hbad]
  | cj :: pre, ci, post, p, hpre, hp, hbad => by
    obtain ⟨q, hq, hqst⟩ := hpre cj (List.mem_cons_self cj pre)
    have ih := buildOrderItems_insufficient ps pre ci post p
      (fun ck hk => hpre ck (List.mem_cons_of_mem cj hk)) hp hbad
    simp [List.cons_append, buildOrderItems, hq, if_neg hqst, ih]

/-- Every element of the right list of a `Forall₂` has a related element on
the left. -/
theorem forall₂_mem_right {α β : Type} {R : α → β → Prop} :
    ∀ {l1 : List α} {l2 : List β}, List.Forall₂ R l1 l2 → ∀ b ∈ l2, ∃ a ∈ l1, R a b := by
  intro l1 l2 h
  induction h with
  | nil => intro b hb; cases hb
  | cons hab _ ih =>
    intro b hb
    rcases List.mem_cons.mp hb with rfl | hb2
    · exact ⟨_, List.mem_cons_self _ _, hab⟩
    · obtain ⟨a, ha, hr⟩ := ih b hb2
      exact ⟨a, List.mem_cons_of_mem _ ha, hr⟩

/-- Every element of the left list of a `Forall₂` has a related element on
the right. -/
theorem forall₂_mem_left {α β : Type} {R : α → β → Prop} :
    ∀ {l1 : List α} {l2 : List β}, List.Forall₂ R l1 l2 → ∀ a ∈ l1, ∃ b ∈ l2, R a b := by
  intro l1 l2 h
  induction h with
  | nil => intro a ha; cases ha
  | cons hab _ ih =>
    intro a ha
    rcases List.mem_cons.mp ha with rfl | ha2
    · exact ⟨_, List.mem_cons_self _ _, hab⟩
    · obtain ⟨b, hb, hr⟩ := ih a ha2
      exact ⟨b, List.mem_cons_of_mem _ hb, hr⟩

/-- The order lines of a successful validation carry the same product ids,
in the same sequence, as the cart lines they were built from. -/
theorem forall₂_productId_map {ps : List Product} :
    ∀ {cart : List CartItem} {items : List OrderItem},
      List.Forall₂ (orderLineRel ps) cart items →
      items.map (fun it => it.productId) = cart.map (fun ci => ci.productId) := by
  intro cart items h
  induction h with
  | nil => rfl
  | cons hab _ ih =>
    obtain ⟨p, _, _, hpid, _⟩ := hab
    simp [List.map_cons, ih, hpid]

/-- The order document a successful checkout writes and returns. -/
def checkoutOrder (userId orderId : String) (now : Nat) (items : List OrderItem)
    (total : Int) : Order :=
  { id := orderId, customerId := userId, items := items,
    totalAmount := total, status := .completed, createdAt := now }

/-- A successful checkout in closed form: the order document written and
returned, the batched stock decrements, and the cleared cart. -/
theorem createOrderFromCart_ok (s : State) (userId orderId : String) (now : Nat)
    (items : List OrderItem) (total : Int)
    (hlen : ¬ s.cart.length = 0)
    (hok : buildOrderItems s.products s.cart = .ok (items, total)) :
    createOrderFromCart s userId orderId now =
      (.ok (checkoutOrder userId orderId now items total),
       { products := applyStockBatch s.products items now, cart := [],
         orders := s.orders ++ [checkoutOrder userId orderId now items total] }) := by
  simp only [createOrderFromCart, if_neg hlen, hok, clearCart, checkoutOrder]

/-!  Claims. -/

/-- C1: for every non-empty cart whose every line passes stock validation,
`createOrderFromCart` returns an order whose `totalAmount` equals the sum
over its order lines of `priceAtPurchase * quantity`, and each order
line's stored `subtotal` equals its own `priceAtPurchase * quantity`. -/
theorem C1_checkout_total (s : State) (userId orderId : String) (now : Nat)
    (hne : s.cart ≠ [])
    (hv : ∀ ci ∈ s.cart, lineValid s.products ci) :
    ∃ order s2, createOrderFromCart s userId orderId now = (.ok order, s2) ∧
      order.totalAmount =
        (order.items.map (fun it => it.priceAtPurchase * it.quantity)).sum ∧
      ∀ it ∈ order.items, it.subtotal = it.priceAtPurchase * it.quantity := by
  obtain ⟨items, total, hok⟩ := buildOrderItems_isOk s.products s.cart hv
  obtain ⟨hrel, htot⟩ := buildOrderItems_spec s.products s.cart items total hok
  have hlen : ¬ s.cart.length = 0 := by simpa [List.length_eq_zero] using hne
  refine ⟨_, _, createOrderFromCart_ok s userId orderId now items total hlen hok,
    htot, ?_⟩
  intro it hit
  obtain ⟨ci, hci, p, hp, hst, hpid, hq, hprice, hname, himg, hsub⟩ :=
    forall₂_mem_right hrel it hit
  rw [hsub, hprice, hq]

/-- Sample product used by the concrete witness states. -/
def mkProduct (id name : String) (price stock : Int) : Product :=
  { id := id, sellerId := "seller1", name := name, description := "",
    price := price, stock := stock, category := .other,
    imageUrl := DEFAULT_IMAGE_URL, createdAt := 0, updatedAt := 0 }

/-- Sample cart line used by the concrete witness states. -/
def mkCartLine (productId : String) (snapshot : Product) (quantity : Int) : CartItem :=
  { id := productId, productId := productId, product := snapshot,
    quantity := quantity, addedAt := 0, updatedAt := none }

/-- The spec's own example cart: one product at price 10000 with stock 5,
carted with quantity 2. -/
def c1state : State :=
  { products := [mkProduct "a" "Alpha" 10000 5],
    cart := [mkCartLine "a" (mkProduct "a" "Alpha" 10000 5) 2],
    orders := [] }

/-- C1 witness: the spec's example cart satisfies the hypotheses of
`C1_checkout_total`. -/
theorem C1_checkout_total_witness :
    ∃ order s2, createOrderFromCart c1state "cust" "ord1" 3 = (.ok order, s2) ∧
      order.totalAmount =
        (order.items.map (fun it => it.priceAtPurchase * it.quantity)).sum ∧
      ∀ it ∈ order.items, it.subtotal = it.priceAtPurchase * it.quantity :=
  C1_checkout_total c1state "cust" "ord1" 3 (by decide)
    (fun ci hci => by
      simp only [c1state, List.mem_singleton] at hci
      subst hci
      exact ⟨mkProduct "a" "Alpha" 10000 5, rfl, by decide⟩)

/-- C2: checkout on an empty cart fails with the empty-cart error and
performs no writes — the returned state is the input state. -/
theorem C2_empty_cart (s : State) (userId orderId : String) (now : Nat)
    (h : s.cart = []) :
    createOrderFromCart s userId orderId now = (.error .emptyCart, s) := by
  simp [createOrderFromCart, h]

/-- A customer with products on sale but an empty cart. -/
def c2state : State :=
  { products := [mkProduct "a" "Alpha" 10000 5], cart := [], orders := [] }

/-- C2 witness at a concrete empty cart. -/
theorem C2_empty_cart_witness :
    createOrderFromCart c2state "cust" "ord1" 3 = (.error .emptyCart, c2state) :=
  C2_empty_cart c2state "cust" "ord1" 3 rfl

/-- A cart whose first line references a product that has been deleted
(only its cached snapshot, named `Alpha`, survives on the line) and whose
second line requests 2 units of product `b` although only 1 is in stock. -/
def c3state : State :=
  { products := [mkProduct "b" "Beta" 5000 1],
    cart := [mkCartLine "a" (mkProduct "a" "Alpha" 10000 5) 1,
             mkCartLine "b" (mkProduct "b" "Beta" 5000 1) 2],
    orders := [] }

/-- C3 counterexample: `c3state` contains a line whose requested quantity
exceeds its product's current stock, yet `createOrderFromCart` fails with
the product-not-found error for the earlier dangling line — not with an
insufficient-stock error — because the validation loop stops at the first
failing check in cart-read order. -/
theorem C3_counterexample :
    (∃ ci ∈ c3state.cart, ∃ p, getProductById ci.productId c3state.products = some p ∧
        p.stock < ci.quantity) ∧
    createOrderFromCart c3state "cust" "ord1" 0 =
      (.error (.productNotFound "Alpha"), c3state) ∧
    (∀ name avail req,
      OrderError.productNotFound "Alpha" ≠ .insufficientStock name avail req) := by
  refine ⟨⟨mkCartLine "b" (mkProduct "b" "Beta" 5000 1) 2, by decide,
    mkProduct "b" "Beta" 5000 1, rfl, by decide⟩, rfl, ?_⟩
  intro name avail req h
  exact OrderError.noConfusion h

/-- C3 amended: if every cart line before the first stock-violating line
still references an existing product with sufficient stock, then checkout
fails with the insufficient-stock error naming that first violating line's
product and carrying the available and requested counts, and performs no
writes — the returned state is the input state. -/
theorem C3_first_insufficient_stock (s : State) (userId orderId : String) (now : Nat)
    (pre post : List CartItem) (ci : CartItem) (p : Product)
    (hsplit : s.cart = pre ++ ci :: post)
    (hpre : ∀ cj ∈ pre, lineValid s.products cj)
    (hp : getProductById ci.productId s.products = some p)
    (hbad : p.stock < ci.quantity) :
    createOrderFromCart s userId orderId now =
      (.error (.insufficientStock p.name p.stock ci.quantity), s) := by
  have herr := buildOrderItems_insufficient s.products pre ci post p hpre hp hbad
  have hlen : ¬ (pre ++ ci :: post).length = 0 := by simp
  simp only [createOrderFromCart, hsplit, if_neg hlen, herr]

/-- A cart holding 2 units of product `b` of which only 1 is in stock. -/
def c3wstate : State :=
  { products := [mkProduct "b" "Beta" 5000 1],
    cart := [mkCartLine "b" (mkProduct "b" "Beta" 5000 1) 2],
    orders := [] }

/-- Witness for the amended C3: the spec's second example (`stock 1`,
`qty 2`) is rejected with available 1 / requested 2 and no state change. -/
theorem C3_first_insufficient_stock_witness :
    createOrderFromCart c3wstate "cust" "ord1" 0 =
      (.error (.insufficientStock "Beta" 1 2), c3wstate) :=
  C3_first_insufficient_stock c3wstate "cust" "ord1" 0 [] []
    (mkCartLine "b" (mkProduct "b" "Beta" 5000 1) 2) (mkProduct "b" "Beta" 5000 1)
    rfl (fun cj hj => absurd hj (List.not_mem_nil cj)) rfl (by decide)

/-- C4: after a successful checkout every product referenced by an order
line has its stock decremented by the ordered quantity (and a fresh update
timestamp), the customer's cart collection is empty, and the returned
order carries its generated identity and status `completed`. -/
theorem C4_checkout_effects (s : State) (userId orderId : String) (now : Nat)
    (hne : s.cart ≠ [])
    (hv : ∀ ci ∈ s.cart, lineValid s.products ci)
    (hnd : (s.cart.map (fun ci => ci.productId)).Nodup) :
    ∃ order s2, createOrderFromCart s userId orderId now = (.ok order, s2) ∧
      order.id = orderId ∧ order.status = .completed ∧ s2.cart = [] ∧
      ∀ ci ∈ s.cart, ∀ p, getProductById ci.productId s.products = some p →
        getProductById ci.productId s2.products =
          some { p with stock := p.stock - ci.quantity, updatedAt := now } := by
  obtain ⟨items, total, hok⟩ := buildOrderItems_isOk s.products s.cart hv
  obtain ⟨hrel, htot⟩ := buildOrderItems_spec s.products s.cart items total hok
  have hlen : ¬ s.cart.length = 0 := by simpa [List.length_eq_zero] using hne
  refine ⟨_, _, createOrderFromCart_ok s userId orderId now items total hlen hok,
    rfl, rfl, rfl, ?_⟩
  intro ci hci p hp
  obtain ⟨it, hit, q, hq, hqst, hpid, hqty, hrest⟩ := forall₂_mem_left hrel ci hci
  have hqp : q = p := by
    rw [hq] at hp
    exact Option.some.inj hp
  subst hqp
  have hndItems : (items.map (fun it => it.productId)).Nodup := by
    rw [forall₂_productId_map hrel]
    exact hnd
  have hres := foldl_stockStep_hit s.products now items it q s.products hndItems hit
    (by rw [hpid]; exact hq) (by rw [hpid]; exact hq)
  rw [hpid, hqty] at hres
  exact hres

/-- A two-line cart over two distinct products, both in stock. -/
def c4state : State :=
  { products := [mkProduct "a" "Alpha" 10000 5, mkProduct "b" "Beta" 2000 3],
    cart := [mkCartLine "a" (mkProduct "a" "Alpha" 10000 5) 2,
             mkCartLine "b" (mkProduct "b" "Beta" 2000 3) 1],
    orders := [] }

/-- C4 witness at a concrete two-line cart. -/
theorem C4_checkout_effects_witness :
    ∃ order s2, createOrderFromCart c4state "cust" "ord1" 9 = (.ok order, s2) ∧
      order.id = "ord1" ∧ order.status = .completed ∧ s2.cart = [] ∧
      ∀ ci ∈ c4state.cart, ∀ p, getProductById ci.productId c4state.products = some p →
        getProductById ci.productId s2.products =
          some { p with stock := p.stock - ci.quantity, updatedAt := 9 } :=
  C4_checkout_effects c4state "cust" "ord1" 9 (by decide)
    (fun ci hci => by
      simp only [c4state, List.mem_cons, List.not_mem_nil, or_false] at hci
      rcases hci with rfl | rfl
      · exact ⟨mkProduct "a" "Alpha" 10000 5, rfl, by decide⟩
      · exact ⟨mkProduct "b" "Beta" 2000 3, rfl, by decide⟩)
    (by decide)

/-- C5: the `priceAtPurchase` and `subtotal` that a successful checkout
records come from the product re-fetched at checkout time: each order line
prices its cart line from the looked-up product record, whatever the price
cached on the cart line's snapshot says. -/
theorem C5_current_price (s : State) (userId orderId : String) (now : Nat)
    (order : Order) (s2 : State)
    (h : createOrderFromCart s userId orderId now = (.ok order, s2)) :
    List.Forall₂ (fun (ci : CartItem) (it : OrderItem) =>
      ∃ p, getProductById ci.productId s.products = some p ∧
        it.priceAtPurchase = p.price ∧ it.subtotal = p.price * ci.quantity)
      s.cart order.items := by
  by_cases hlen : s.cart.length = 0
  · simp only [createOrderFromCart, if_pos hlen] at h
    exact Except.noConfusion (congrArg Prod.fst h)
  · cases hb : buildOrderItems s.products s.cart with
    | error e =>
      simp only [createOrderFromCart, if_neg hlen, hb] at h
      exact Except.noConfusion (congrArg Prod.fst h)
    | ok pr =>
      obtain ⟨items, total⟩ := pr
      rw [createOrderFromCart_ok s userId orderId now items total hlen hb] at h
      simp only [Prod.mk.injEq] at h
      obtain ⟨h1, h2⟩ := h
      have horder := Except.ok.inj h1
      subst horder
      obtain ⟨hrel, htot⟩ := buildOrderItems_spec s.products s.cart items total hb
      refine List.Forall₂.imp ?_ hrel
      intro ci it hr
      obtain ⟨p, hp, hst, hpid, hqty, hprice, hname, himg, hsub⟩ := hr
      exact ⟨p, hp, hprice, hsub⟩

/-- A cart line whose cached snapshot still says price 100 while the
product record now says price 150. -/
def c5state : State :=
  { products := [mkProduct "a" "Alpha" 150 10],
    cart := [mkCartLine "a" (mkProduct "a" "Alpha" 100 10) 2],
    orders := [] }

/-- The order the checkout of `c5state` writes: priced 150 per unit from
the re-fetched record, not 100 from the cart snapshot. -/
def c5order : Order :=
  checkoutOrder "cust" "ord1" 7 [⟨"a", "Alpha", DEFAULT_IMAGE_URL, 2, 150, 300⟩] 300

/-- The state after checking out `c5state`. -/
def c5state2 : State :=
  { products := [{ mkProduct "a" "Alpha" 150 10 with stock := 8, updatedAt := 7 }],
    cart := [], orders := [c5order] }

/-- C5 witness: with cached price 100 and current price 150 the recorded
price is the current one. -/
theorem C5_current_price_witness :
    (mkCartLine "a" (mkProduct "a" "Alpha" 100 10) 2).product.price = 100 ∧
    getProductById "a" c5state.products = some (mkProduct "a" "Alpha" 150 10) ∧
    List.Forall₂ (fun (ci : CartItem) (it : OrderItem) =>
      ∃ p, getProductById ci.productId c5state.products = some p ∧
        it.priceAtPurchase = p.price ∧ it.subtotal = p.price * ci.quantity)
      c5state.cart c5order.items :=
  ⟨rfl, rfl, C5_current_price c5state "cust" "ord1" 7 c5order c5state2 rfl⟩

/-- Looking the cart line up after the merge/overwrite `updateDoc`, which
touches exactly the documents keyed by the given product id. -/
theorem find?_cart_update (cart : List CartItem) (productId : String)
    (g : CartItem → CartItem) (hg : ∀ ci, (g ci).productId = ci.productId) :
    (cart.map (fun ci => if ci.productId == productId then g ci else ci)).find?
        (fun ci => ci.productId == productId) =
      (cart.find? (fun ci => ci.productId == productId)).map
        (fun ci => if ci.productId == productId then g ci else ci) :=
  find?_map_key _ _
    (fun a => by by_cases h : a.productId = productId <;> simp [h, hg]) cart

/-- After the merge/overwrite `updateDoc`, the stored cart line is the old
one transformed by the update. -/
theorem getCartLine_after_update {s : State} {productId : String} {existing : CartItem}
    (g : CartItem → CartItem) (hg : ∀ ci, (g ci).productId = ci.productId)
    (hex : getCartLine s productId = some existing) :
    getCartLine
      { s with cart := s.cart.map (fun ci =>
          if ci.productId == productId then g ci else ci) } productId =
      some (g existing) := by
  have hpid : existing.productId = productId := getCartLine_eq_productId hex
  unfold getCartLine at hex ⊢
  rw [find?_cart_update _ _ g hg, hex]
  simp [hpid]

/-- After the `deleteDoc` of a cart line, no line with its product id is
left in the cart. -/
theorem find?_filter_ne (cart : List CartItem) (productId : String) :
    (cart.filter (fun ci => ci.productId != productId)).find?
      (fun ci => ci.productId == productId) = none := by
  induction cart with
  | nil => rfl
  | cons a l ih =>
    by_cases h : a.productId = productId
    · simp [List.filter_cons, h, ih]
    · simp [List.filter_cons, h, ih]

/-- C6: when a cart line for the product already exists, `addToCart`
stores the sum of the existing and requested quantities; it fails with the
insufficient-stock error when that sum exceeds current stock and with the
product-not-found error when the product is absent, leaving the state
unchanged in both failure cases. -/
theorem C6_addToCart_merge (s : State) (userId productId : String) (quantity : Int)
    (now : Nat) (existing : CartItem)
    (hex : getCartLine s productId = some existing) :
    (∀ p, getProductById productId s.products = some p →
      ¬ p.stock < quantity → ¬ p.stock < existing.quantity + quantity →
      (addToCart s userId productId quantity now).1 =
        .ok { existing with quantity := existing.quantity + quantity } ∧
      getCartLine (addToCart s userId productId quantity now).2 productId =
        some { existing with
          quantity := existing.quantity + quantity,
          updatedAt := some now }) ∧
    (getProductById productId s.products = none →
      addToCart s userId productId quantity now = (.error .productNotFound, s)) ∧
    (∀ p, getProductById productId s.products = some p →
      p.stock < existing.quantity + quantity →
      addToCart s userId productId quantity now = (.error .insufficientStock, s)) := by
  have hfind : s.cart.find? (fun ci => ci.productId == productId) = some existing := hex
  refine ⟨?_, ?_, ?_⟩
  · intro p hp h1 h2
    have hline := getCartLine_after_update
      (fun ci => { ci with
        quantity := existing.quantity + quantity,
        updatedAt := some now })
      (fun ci => rfl) hex
    constructor
    · simp only [addToCart, hp, hfind, if_neg h1, if_neg h2]
    · simp only [addToCart, hp, hfind, if_neg h1, if_neg h2]
      exact hline
  · intro hp
    simp only [addToCart, hp]
  · intro p hp hsum
    by_cases h1 : p.stock < quantity
    · simp only [addToCart, hp, if_pos h1]
    · simp only [addToCart, hp, hfind, if_neg h1, if_pos hsum]

/-- A cart holding 2 units of product `a`, which has 10 in stock. -/
def c6stateA : State :=
  { products := [mkProduct "a" "Alpha" 100 10],
    cart := [mkCartLine "a" (mkProduct "a" "Alpha" 100 10) 2], orders := [] }

/-- A cart line for product `a` whose product record has been deleted. -/
def c6stateB : State :=
  { products := [],
    cart := [mkCartLine "a" (mkProduct "a" "Alpha" 100 10) 2], orders := [] }

/-- A cart holding 2 units of product `a`, which has only 4 in stock. -/
def c6stateC : State :=
  { products := [mkProduct "a" "Alpha" 100 4],
    cart := [mkCartLine "a" (mkProduct "a" "Alpha" 100 4) 2], orders := [] }

/-- C6 witness: merging 3 more units onto 2 stores 5; a deleted product is
rejected; 2 + 3 against stock 4 is rejected; both rejections leave the
state unchanged. -/
theorem C6_addToCart_merge_witness :
    (addToCart c6stateA "cust" "a" 3 7).1 =
      .ok { mkCartLine "a" (mkProduct "a" "Alpha" 100 10) 2 with quantity := 5 } ∧
    getCartLine (addToCart c6stateA "cust" "a" 3 7).2 "a" =
      some { mkCartLine "a" (mkProduct "a" "Alpha" 100 10) 2 with
             quantity := 5, updatedAt := some 7 } ∧
    addToCart c6stateB "cust" "a" 3 7 = (.error .productNotFound, c6stateB) ∧
    addToCart c6stateC "cust" "a" 3 7 = (.error .insufficientStock, c6stateC) := by
  refine ⟨?_, ?_, ?_, ?_⟩
  · exact ((C6_addToCart_merge c6stateA "cust" "a" 3 7
      (mkCartLine "a" (mkProduct "a" "Alpha" 100 10) 2) rfl).1
      (mkProduct "a" "Alpha" 100 10) rfl (by decide) (by decide)).1
  · exact ((C6_addToCart_merge c6stateA "cust" "a" 3 7
      (mkCartLine "a" (mkProduct "a" "Alpha" 100 10) 2) rfl).1
      (mkProduct "a" "Alpha" 100 10) rfl (by decide) (by decide)).2
  · exact (C6_addToCart_merge c6stateB "cust" "a" 3 7
      (mkCartLine "a" (mkProduct "a" "Alpha" 100 10) 2) rfl).2.1 rfl
  · exact (C6_addToCart_merge c6stateC "cust" "a" 3 7
      (mkCartLine "a" (mkProduct "a" "Alpha" 100 4) 2) rfl).2.2
      (mkProduct "a" "Alpha" 100 4) rfl (by decide)

/-- C7: `updateCartItemQuantity` deletes the line when the new quantity is
zero or negative; a positive quantity is validated against the freshly
fetched product (product-not-found when absent, insufficient-stock when it
exceeds stock, both leaving the state unchanged) and otherwise overwrites
the stored quantity. -/
theorem C7_update_quantity (s : State) (userId productId : String)
    (quantity : Int) (now : Nat) :
    (quantity ≤ 0 →
      (updateCartItemQuantity s userId productId quantity now).1 = .ok () ∧
      getCartLine (updateCartItemQuantity s userId productId quantity now).2 productId
        = none ∧
      ∀ ci ∈ s.cart, ci.productId ≠ productId →
        ci ∈ (updateCartItemQuantity s userId productId quantity now).2.cart) ∧
    (0 < quantity → getProductById productId s.products = none →
      updateCartItemQuantity s userId productId quantity now =
        (.error .productNotFound, s)) ∧
    (∀ p, 0 < quantity → getProductById productId s.products = some p →
      p.stock < quantity →
      updateCartItemQuantity s userId productId quantity now =
        (.error .insufficientStock, s)) ∧
    (∀ p existing, 0 < quantity → getProductById productId s.products = some p →
      ¬ p.stock < quantity → getCartLine s productId = some existing →
      (updateCartItemQuantity s userId productId quantity now).1 = .ok () ∧
      getCartLine (updateCartItemQuantity s userId productId quantity now).2 productId
        = some { existing with quantity := quantity, updatedAt := some now }) := by
  refine ⟨?_, ?_, ?_, ?_⟩
  · intro hq
    refine ⟨by simp [updateCartItemQuantity, if_pos hq], ?_, ?_⟩
    · simp only [updateCartItemQuantity, if_pos hq]
      exact find?_filter_ne s.cart productId
    · intro ci hci hne
      simp only [updateCartItemQuantity, if_pos hq]
      exact List.mem_filter.mpr ⟨hci, by simp [hne]⟩
  · intro h0 hp
    simp only [updateCartItemQuantity, if_neg (not_le.mpr h0), hp]
  · intro p h0 hp hst
    simp only [updateCartItemQuantity, if_neg (not_le.mpr h0), hp, if_pos hst]
  · intro p existing h0 hp hst hex
    have hmem : existing ∈ s.cart := List.mem_of_find?_eq_some hex
    have hany : s.cart.any (fun ci => ci.productId == productId) = true :=
      List.any_eq_true.mpr ⟨existing, hmem, by simp [getCartLine_eq_productId hex]⟩
    have hline := getCartLine_after_update
      (fun ci => { ci with quantity := quantity, updatedAt := some now })
      (fun ci => rfl) hex
    constructor
    · simp [updateCartItemQuantity, if_neg (not_le.mpr h0), hp, if_neg hst, hany]
    · simp only [updateCartItemQuantity, if_neg (not_le.mpr h0), hp, if_neg hst, hany,
        if_pos]
      exact hline

/-- A two-line cart used to watch a deletion leave the other line alone. -/
def c7stateA : State :=
  { products := [mkProduct "a" "Alpha" 100 10],
    cart := [mkCartLine "a" (mkProduct "a" "Alpha" 100 10) 2,
             mkCartLine "b" (mkProduct "b" "Beta" 50 5) 1], orders := [] }

/-- A cart line whose product record has been deleted. -/
def c7stateB : State :=
  { products := [],
    cart := [mkCartLine "a" (mkProduct "a" "Alpha" 100 10) 2], orders := [] }

/-- A cart line for a product with only 1 unit in stock. -/
def c7stateC : State :=
  { products := [mkProduct "a" "Alpha" 100 1],
    cart := [mkCartLine "a" (mkProduct "a" "Alpha" 100 1) 2], orders := [] }

/-- C7 witness: quantity 0 deletes the line and keeps the other one;
quantity 5 on a deleted product is rejected; quantity 5 against stock 1 is
rejected; quantity 5 against stock 10 overwrites the stored quantity. -/
theorem C7_update_quantity_witness :
    getCartLine (updateCartItemQuantity c7stateA "cust" "a" 0 7).2 "a" = none ∧
    mkCartLine "b" (mkProduct "b" "Beta" 50 5) 1 ∈
      (updateCartItemQuantity c7stateA "cust" "a" 0 7).2.cart ∧
    updateCartItemQuantity c7stateB "cust" "a" 5 7 =
      (.error .productNotFound, c7stateB) ∧
    updateCartItemQuantity c7stateC "cust" "a" 5 7 =
      (.error .insufficientStock, c7stateC) ∧
    getCartLine (updateCartItemQuantity c6stateA "cust" "a" 5 7).2 "a" =
      some { mkCartLine "a" (mkProduct "a" "Alpha" 100 10) 2 with
             quantity := 5, updatedAt := some 7 } := by
  refine ⟨?_, ?_, ?_, ?_, ?_⟩
  · exact ((C7_update_quantity c7stateA "cust" "a" 0 7).1 (by decide)).2.1
  · exact ((C7_update_quantity c7stateA "cust" "a" 0 7).1 (by decide)).2.2
      (mkCartLine "b" (mkProduct "b" "Beta" 50 5) 1) (by decide) (by decide)
  · exact (C7_update_quantity c7stateB "cust" "a" 5 7).2.1 (by decide) rfl
  · exact (C7_update_quantity c7stateC "cust" "a" 5 7).2.2.1
      (mkProduct "a" "Alpha" 100 1) (by decide) rfl (by decide)
  · exact ((C7_update_quantity c6stateA "cust" "a" 5 7).2.2.2
      (mkProduct "a" "Alpha" 100 10)
      (mkCartLine "a" (mkProduct "a" "Alpha" 100 10) 2)
      (by decide) rfl (by decide) rfl).2

/-- C8: a merging `addToCart` changes only the line's quantity and update
timestamp: the denormalized snapshot, the added-at timestamp and the ids
stay exactly as captured when the line was created. -/
theorem C8_merge_preserves_snapshot (s : State) (userId productId : String)
    (quantity : Int) (now : Nat) (existing : CartItem) (p : Product)
    (hex : getCartLine s productId = some existing)
    (hp : getProductById productId s.products = some p)
    (h1 : ¬ p.stock < quantity)
    (h2 : ¬ p.stock < existing.quantity + quantity) :
    ∃ line2, getCartLine (addToCart s userId productId quantity now).2 productId =
        some line2 ∧
      line2.product = existing.product ∧ line2.addedAt = existing.addedAt ∧
      line2.id = existing.id ∧ line2.productId = existing.productId ∧
      line2.quantity = existing.quantity + quantity ∧ line2.updatedAt = some now := by
  have hfind : s.cart.find? (fun ci => ci.productId == productId) = some existing := hex
  have hline := getCartLine_after_update
    (fun ci => { ci with
      quantity := existing.quantity + quantity,
      updatedAt := some now })
    (fun ci => rfl) hex
  refine ⟨{ existing with
    quantity := existing.quantity + quantity,
    updatedAt := some now }, ?_, rfl, rfl, rfl, rfl, rfl, rfl⟩
  simp only [addToCart, hp, hfind, if_neg h1, if_neg h2]
  exact hline

/-- A cart line created when product `a` cost 100; the product record now
says 200. -/
def c8state : State :=
  { products := [mkProduct "a" "Alpha" 200 10],
    cart := [mkCartLine "a" (mkProduct "a" "Alpha" 100 10) 2], orders := [] }

/-- C8 witness: after merging one more unit, the stored snapshot still
carries the add-time price 100 although the product record says 200. -/
theorem C8_merge_preserves_snapshot_witness :
    getProductById "a" c8state.products = some (mkProduct "a" "Alpha" 200 10) ∧
    (mkCartLine "a" (mkProduct "a" "Alpha" 100 10) 2).product.price = 100 ∧
    (∃ line2, getCartLine (addToCart c8state "cust" "a" 1 7).2 "a" = some line2 ∧
      line2.product = (mkCartLine "a" (mkProduct "a" "Alpha" 100 10) 2).product ∧
      line2.addedAt = (mkCartLine "a" (mkProduct "a" "Alpha" 100 10) 2).addedAt ∧
      line2.id = (mkCartLine "a" (mkProduct "a" "Alpha" 100 10) 2).id ∧
      line2.productId = (mkCartLine "a" (mkProduct "a" "Alpha" 100 10) 2).productId ∧
      line2.quantity = (mkCartLine "a" (mkProduct "a" "Alpha" 100 10) 2).quantity + 1 ∧
      line2.updatedAt = some 7) :=
  ⟨rfl, rfl, C8_merge_preserves_snapshot c8state "cust" "a" 1 7
    (mkCartLine "a" (mkProduct "a" "Alpha" 100 10) 2) (mkProduct "a" "Alpha" 200 10)
    rfl rfl (by decide) (by decide)⟩

/-- C9: a zero-or-negative quantity deletes the cart line before any
product fetch: the call succeeds — never with a product-not-found error —
even when the referenced product has been deleted. -/
theorem C9_delete_skips_product_fetch (s : State) (userId productId : String)
    (quantity : Int) (now : Nat)
    (hq : quantity ≤ 0)
    (habs : getProductById productId s.products = none) :
    (updateCartItemQuantity s userId productId quantity now).1 = .ok () ∧
    getCartLine (updateCartItemQuantity s userId productId quantity now).2 productId
      = none := by
  constructor
  · simp [updateCartItemQuantity, if_pos hq]
  · simp only [updateCartItemQuantity, if_pos hq]
    exact find?_filter_ne s.cart productId

/-- A cart line whose product record has been deleted, about to be set to
quantity 0. -/
def c9state : State :=
  { products := [],
    cart := [mkCartLine "a" (mkProduct "a" "Alpha" 100 10) 2], orders := [] }

/-- C9 witness: deleting the line of a vanished product succeeds. -/
theorem C9_delete_skips_product_fetch_witness :
    (updateCartItemQuantity c9state "cust" "a" 0 7).1 = .ok () ∧
    getCartLine (updateCartItemQuantity c9state "cust" "a" 0 7).2 "a" = none :=
  C9_delete_skips_product_fetch c9state "cust" "a" 0 7 (by decide) rfl

/-- C10: neither `deleteProduct` nor `updateProduct` ever issues a storage
deletion for the shared placeholder image: a deletion is issued only for a
stored URL that differs from the placeholder. -/
theorem C10_placeholder_never_deleted (c : Catalog) (productId : String)
    (updates : ProductUpdate) (uploadedImageUrl : Option String) (now : Nat)
    (h : DEFAULT_IMAGE_URL ∉ c.deletedImages) :
    DEFAULT_IMAGE_URL ∉ (deleteProduct c productId).deletedImages ∧
    DEFAULT_IMAGE_URL ∉ (updateProduct c productId updates uploadedImageUrl now).deletedImages := by
  have hbranch : ∀ product : Product,
      DEFAULT_IMAGE_URL ∉ (if product.imageUrl ≠ DEFAULT_IMAGE_URL then
        deleteProductImage c product.imageUrl else c).deletedImages := by
    intro product
    by_cases him : product.imageUrl = DEFAULT_IMAGE_URL
    · rw [if_neg (not_not_intro him)]
      exact h
    · rw [if_pos him]
      simp only [deleteProductImage]
      intro hmem
      rcases List.mem_append.mp hmem with hmem1 | hmem2
      · exact h hmem1
      · exact him (List.mem_singleton.mp hmem2).symm
  constructor
  · simp only [deleteProduct]
    cases hp : getProductById productId c.products with
    | none => exact h
    | some product => exact hbranch product
  · cases uploadedImageUrl with
    | none => exact h
    | some newUrl =>
      simp only [updateProduct]
      cases hp : getProductById productId c.products with
      | none => exact h
      | some product => exact hbranch product

/-- A catalog whose one product still carries the placeholder image. -/
def c10cat : Catalog :=
  { products := [mkProduct "a" "Alpha" 100 5], deletedImages := [] }

/-- C10 witness: deleting or re-imaging a placeholder-imaged product never
deletes the placeholder object. -/
theorem C10_placeholder_never_deleted_witness :
    DEFAULT_IMAGE_URL ∉ (deleteProduct c10cat "a").deletedImages ∧
    DEFAULT_IMAGE_URL ∉
      (updateProduct c10cat "a" {} (some "https://img/new.png") 7).deletedImages :=
  C10_placeholder_never_deleted c10cat "a" {} (some "https://img/new.png") 7
    (List.not_mem_nil DEFAULT_IMAGE_URL)

end Shopee
